import Mathlib

/-!
Verification of the webpage-md-extractor pipeline (src/config.py,
src/main.py, src/extractor.py) against its natural-language specification.

The Python program is shallowly embedded:
* configuration constants are copied from src/config.py;
* `extract_url` (src/extractor.py) is modelled as a fold over the attempt
  list `range(MAX_RETRIES)`, with the outcome of each attempt's external
  stages (fetch / clean / convert / save) abstracted into an oracle
  `Nat → Option ErrKind` (`none` = the attempt succeeds end to end,
  `some k` = the attempt raises an exception of kind `k`); the model
  records the returned value (`Option Bool`, `none` standing for Python's
  implicit `None` fall-through), the number of loop iterations executed,
  and the list of back-off sleep durations in seconds;
* `main` (src/main.py) is modelled as a function of the list of completed
  future outcomes (`Except ErrKind (Option Bool)`: a future either yields
  `extract_url`'s return value or raises);
* `_save_markdown`'s path computation is modelled over path components;
* `_clean_html` is modelled over a small DOM tree type.
-/

/-! ## Configuration constants (src/config.py) -/

def OUTPUT_DIR : String := "./output"

def MAX_RETRIES : Int := 3

def PAGE_LOAD_TIMEOUT : Int := 30

def MAX_WORKERS : Int := 3

/-! ## Error kinds

The spec's error taxonomy.  `extract_url` in the source catches every
`Exception` in a single handler, so the kind is carried around but never
inspected by the embedded code. -/

inductive ErrKind where
  | fetchError
  | transformError
  | ioError
  | configError
  | valueError
deriving DecidableEq, Repr

/-- Observable trace of one `extract_url` call: the Python return value
(`none` models falling off the end of the function, i.e. Python `None`),
the number of attempts (loop iterations) executed, and the back-off sleep
durations in seconds, in order. -/
structure RunTrace where
  result : Option Bool
  attempts : Nat
  sleeps : List Nat
deriving DecidableEq, Repr

/-- The body of `extract_url`'s `for attempt in range(MAX_RETRIES)` loop
(src/extractor.py lines 46-71), folded over the list of attempt indices.
On success the function returns `True`; on an exception it sleeps
`2 ** attempt` seconds and continues when `attempt < MAX_RETRIES - 1`,
and returns `False` otherwise.  An exhausted list models the loop
finishing without returning (Python then returns `None`). -/
def loopAttempts (oracle : Nat → Option ErrKind) (maxRetries : Nat) :
    List Nat → RunTrace
  | [] => { result := none, attempts := 0, sleeps := [] }
  | attempt :: rest =>
    match oracle attempt with
    | none => { result := some true, attempts := 1, sleeps := [] }
    | some _ =>
      if attempt < maxRetries - 1 then
        let r := loopAttempts oracle maxRetries rest
        { result := r.result, attempts := r.attempts + 1,
          sleeps := 2 ^ attempt :: r.sleeps }
      else
        { result := some false, attempts := 1, sleeps := [] }

/-- `MarkdownExtractor.extract_url` (src/extractor.py lines 46-71) with the
retry bound as a parameter (Python `int`, so `Int`; `range(n)` is empty for
`n ≤ 0`, matching `Int.toNat`). -/
def extract_url (oracle : Nat → Option ErrKind) (maxRetries : Int) : RunTrace :=
  loopAttempts oracle maxRetries.toNat (List.range maxRetries.toNat)

/-! ## The coordinator (src/main.py) -/

/-- The result-collection loop of `main` (src/main.py lines 38-45): each
completed future contributes exactly one entry to `results`; a future that
raised is recorded as `False`. -/
def collectResults (outcomes : List (Except ErrKind (Option Bool))) :
    List (Option Bool) :=
  outcomes.map fun o =>
    match o with
    | .ok v => v
    | .error _ => some false

/-- The aggregate counts reported at the end of `main`
(src/main.py lines 47-54). -/
structure AggregateReport where
  total : Nat
  succeeded : Nat
  failed : Nat
deriving DecidableEq, Repr

/-- `main`'s aggregation (src/main.py lines 27-54): collect one entry per
future, count entries that are identically `True`
(`sum(1 for r in results if r is True)`), and report
`failure_count = len(results) - success_count`. -/
def mainRun (outcomes : List (Except ErrKind (Option Bool))) : AggregateReport :=
  let results := collectResults outcomes
  let success_count := (results.filter (fun r => r = some true)).length
  let failure_count := results.length - success_count
  { total := results.length, succeeded := success_count, failed := failure_count }

/-! ## The persister (src/extractor.py, `_save_markdown`) -/

/-- Split a character list on `/` separators. -/
def splitComponents : List Char → List (List Char)
  | [] => [[]]
  | c :: cs =>
    let rest := splitComponents cs
    if c = '/' then [] :: rest
    else
      match rest with
      | [] => [[c]]
      | r :: rs => (c :: r) :: rs

/-- Split a path string into its components, the way `pathlib.Path` parses
and normalizes (empty components and lone `.` components are dropped). -/
def splitPath (s : String) : List String :=
  (((splitComponents s.data).map fun cs => String.mk cs).filter
    fun c => c ≠ "" && c ≠ ".")

/-- The output path computed by `_save_markdown`
(src/extractor.py line 185): `Path(OUTPUT_DIR) / (title ++ ".md")`,
as a component list. -/
def save_markdown_path (title : String) : List String :=
  splitPath OUTPUT_DIR ++ splitPath (title ++ ".md")

/-- Operating-system resolution of `..` components in a relative path. -/
def resolvePath (comps : List String) : List String :=
  comps.foldl (fun acc c => if c = ".." then acc.dropLast else acc ++ [c]) []

/-- Whether a path stays inside the output root once resolved. -/
def withinRoot (p : List String) : Bool :=
  (resolvePath (splitPath OUTPUT_DIR)).isPrefixOf (resolvePath p)

/-- `_save_markdown` (src/extractor.py lines 177-188): computes the output
path and writes `content` there.  The write effect is modelled by returning
the target path and the written bytes; the source contains no validation or
rejection branch of its own, so the embedded function never produces
`Except.error` (an `IOError` could only come from the operating system). -/
def save_markdown (title content : String) :
    Except ErrKind (List String × String) :=
  Except.ok (save_markdown_path title, content)

/-! ## The sanitizer (src/extractor.py, `_clean_html`)

A small DOM model: element nodes with a tag name, an attribute list and
children, plus text nodes.  `find` is BeautifulSoup's document-order
(depth-first, pre-order) search for the first matching node; a found tag is
truthy in `or`-chains (bs4 `Tag.__bool__` is constantly `True`), so Python's
`x or y` on find results is exactly `Option.orElse`. -/

inductive Node where
  | elem (tag : String) (attrs : List (String × String)) (children : List Node)
  | text (s : String)
deriving Repr

/-- First value bound to an attribute name, as in bs4 attribute lookup. -/
def attrVal (attrs : List (String × String)) (name : String) : Option String :=
  attrs.lookup name

/-- The multi-valued `class` attribute contains a given class name
(bs4 splits `class` on whitespace). -/
def hasClass (attrs : List (String × String)) (c : String) : Bool :=
  match attrVal attrs "class" with
  | some s => ((s.splitOn " ").filter (fun w => w ≠ "")).contains c
  | none => false

mutual

/-- Document-order search: the node itself, then its children left to
right, returning the first node satisfying `p`. -/
def findFirst (p : Node → Bool) : Node → Option Node
  | Node.text s => if p (Node.text s) then some (Node.text s) else none
  | Node.elem t a cs =>
    if p (Node.elem t a cs) then some (Node.elem t a cs)
    else findFirstList p cs

/-- Document-order search over a forest. -/
def findFirstList (p : Node → Bool) : List Node → Option Node
  | [] => none
  | c :: cs =>
    match findFirst p c with
    | some r => some r
    | none => findFirstList p cs

end

/-- A node matched by one of `_clean_html`'s `unwanted_selectors`
(src/extractor.py lines 125-131): tag names `nav`/`footer`/`header`/
`aside`/`script`/`style`/`iframe`/`noscript`, classes `ad`/`advertisement`,
id `ads`, roles `navigation`/`banner`/`complementary`, and
`aria-label="Advertisement"`. -/
def isUnwanted : Node → Bool
  | Node.text _ => false
  | Node.elem t a _ =>
    t = "nav" || t = "footer" || t = "header" || t = "aside" ||
    t = "script" || t = "style" || t = "iframe" || t = "noscript" ||
    hasClass a "ad" || hasClass a "advertisement" ||
    attrVal a "id" = some "ads" ||
    attrVal a "role" = some "navigation" || attrVal a "role" = some "banner" ||
    attrVal a "role" = some "complementary" ||
    attrVal a "aria-label" = some "Advertisement"

mutual

/-- The `element.decompose()` loop of `_clean_html`
(src/extractor.py lines 133-135): every node matching an unwanted selector
is removed together with its subtree. -/
def removeUnwanted : Node → Node
  | Node.text s => Node.text s
  | Node.elem t a cs => Node.elem t a (removeUnwantedList cs)

/-- Unwanted-node removal over a forest. -/
def removeUnwantedList : List Node → List Node
  | [] => []
  | c :: cs =>
    if isUnwanted c then removeUnwantedList cs
    else removeUnwanted c :: removeUnwantedList cs

end

mutual

/-- Serialization of a node back to markup text (Python `str(tag)`). -/
def render : Node → String
  | Node.text s => s
  | Node.elem t a cs =>
    "<" ++ t ++ (a.map fun p => " " ++ p.1 ++ "=" ++ p.2).foldl (· ++ ·) "" ++
    ">" ++ renderList cs ++ "</" ++ t ++ ">"

/-- Serialization of a forest. -/
def renderList : List Node → String
  | [] => ""
  | c :: cs => render c ++ renderList cs

end

/-- `soup.find("main")`. -/
def isMainTag : Node → Bool
  | Node.elem t _ _ => t = "main"
  | Node.text _ => false

/-- `soup.find("article")`. -/
def isArticleTag : Node → Bool
  | Node.elem t _ _ => t = "article"
  | Node.text _ => false

/-- `soup.find("div", class_="content")`. -/
def isDivClassContent : Node → Bool
  | Node.elem t a _ => t = "div" && hasClass a "content"
  | Node.text _ => false

/-- `soup.find("div", id="content")`. -/
def isDivIdContent : Node → Bool
  | Node.elem t a _ => t = "div" && attrVal a "id" = some "content"
  | Node.text _ => false

/-- `soup.find("div", role="main")`. -/
def isDivRoleMain : Node → Bool
  | Node.elem t a _ => t = "div" && attrVal a "role" = some "main"
  | Node.text _ => false

/-- `soup.body`. -/
def isBodyTag : Node → Bool
  | Node.elem t _ _ => t = "body"
  | Node.text _ => false

/-- The `main_content` selection of `_clean_html`
(src/extractor.py lines 138-144): the Python `or`-chain of five `find`
calls. -/
def extract_main_content (s : Node) : Option Node :=
  match findFirst isMainTag s with
  | some n => some n
  | none =>
    match findFirst isArticleTag s with
    | some n => some n
    | none =>
      match findFirst isDivClassContent s with
      | some n => some n
      | none =>
        match findFirst isDivIdContent s with
        | some n => some n
        | none => findFirst isDivRoleMain s

/-- `_clean_html` (src/extractor.py lines 114-151): remove unwanted nodes,
select the main content region, and fall back to `soup.body or soup`
(`str(main_content) if main_content else str(soup.body or soup)`). -/
def clean_html (soup : Node) : String :=
  let s := removeUnwanted soup
  match extract_main_content s with
  | some m => render m
  | none =>
    match findFirst isBodyTag s with
    | some b => render b
    | none => render s

/-- Modelled from the spec: the ordered candidate selectors of spec
section 4.2 ("a semantic main region, then article region, then a
content-labeled container by class name, then by id, then by ARIA role
main"). -/
def candidateSelectors : List (Node → Bool) :=
  [isMainTag, isArticleTag, isDivClassContent, isDivIdContent, isDivRoleMain]

/-- Modelled from the spec: try the candidate selectors in priority order,
first match wins. -/
def firstMatch (ps : List (Node → Bool)) (doc : Node) : Option Node :=
  match ps with
  | [] => none
  | p :: rest =>
    match findFirst p doc with
    | some n => some n
    | none => firstMatch rest doc

/-- Modelled from the spec: ordered-fallback selection of spec section 4.2
("If none match, fall back to the document body; if no body exists, fall
back to the whole document"). -/
def selectPrimarySpec (doc : Node) : Node :=
  match firstMatch candidateSelectors doc with
  | some n => n
  | none =>
    match findFirst isBodyTag doc with
    | some b => b
    | none => doc

/-! ## The transformer (src/extractor.py, `_convert_to_markdown`) -/

/-- The extractor object: `__init__` only stores the fixed Chrome option
strings (src/extractor.py lines 24-33). -/
structure MarkdownExtractor where
  chrome_options : List String
deriving DecidableEq, Repr

/-- `MarkdownExtractor.__init__`. -/
def MarkdownExtractor.init : MarkdownExtractor :=
  { chrome_options :=
      ["--headless", "--no-sandbox", "--disable-dev-shm-usage",
       "--disable-gpu", "--window-size=1920,1080",
       "--disable-blink-features=AutomationControlled",
       "--user-agent=Mozilla/5.0 (Macintosh; Intel Mac OS X 10_15_7) AppleWebKit/537.36 (KHTML, like Gecko) Chrome/120.0.0.0 Safari/537.36"] }

/-- `_convert_to_markdown` (src/extractor.py lines 153-175).  The external
`markdownify` library call with its fixed options (ATX headings, `-`
bullets, anchors stripped) is the explicit function argument `mdFn`; the
whitespace post-processing (`rstrip` every line, join, `strip` the whole)
is embedded directly. -/
def MarkdownExtractor.convert_to_markdown (self : MarkdownExtractor)
    (mdFn : String → String) (html : String) : String :=
  let markdown := mdFn html
  let lines := (markdown.splitOn "\n").map String.trimRight
  (String.intercalate "\n" lines).trim

/-! ## Helper lemmas about the retry loop -/

/-- One loop step: the attempt succeeds, so the function returns `True`. -/
theorem loopAttempts_cons_ok (oracle : Nat → Option ErrKind) (m attempt : Nat)
    (rest : List Nat) (h : oracle attempt = none) :
    loopAttempts oracle m (attempt :: rest) =
      { result := some true, attempts := 1, sleeps := [] } := by
  simp [loopAttempts, h]

/-- One loop step: the attempt raises and a retry remains, so the loop
sleeps `2 ^ attempt` and continues. -/
theorem loopAttempts_cons_retry (oracle : Nat → Option ErrKind)
    (m attempt : Nat) (rest : List Nat) (e : ErrKind)
    (h : oracle attempt = some e) (hlt : attempt < m - 1) :
    loopAttempts oracle m (attempt :: rest) =
      { result := (loopAttempts oracle m rest).result,
        attempts := (loopAttempts oracle m rest).attempts + 1,
        sleeps := 2 ^ attempt :: (loopAttempts oracle m rest).sleeps } := by
  simp [loopAttempts, h, hlt]

/-- One loop step: the attempt raises and it was the last one, so the
function returns `False`. -/
theorem loopAttempts_cons_exhaust (oracle : Nat → Option ErrKind)
    (m attempt : Nat) (rest : List Nat) (e : ErrKind)
    (h : oracle attempt = some e) (hge : ¬ attempt < m - 1) :
    loopAttempts oracle m (attempt :: rest) =
      { result := some false, attempts := 1, sleeps := [] } := by
  simp [loopAttempts, h, hge]

/-- If every attempt raises, running the loop over the attempt indices
`a, a+1, ..., a+len-1` of a `range(m)` suffix (so `a + len = m`) returns
`False` after `len` iterations, sleeping `2 ^ i` after every failed
attempt `i` except the last. -/
theorem loopAttempts_allFail (oracle : Nat → Option ErrKind) (m : Nat)
    (hfail : ∀ n, (oracle n).isSome) :
    ∀ len a, 0 < len → a + len = m →
      loopAttempts oracle m (List.range' a len) =
        { result := some false, attempts := len,
          sleeps := (List.range' a (len - 1)).map (2 ^ ·) } := by
  intro len
  induction len with
  | zero => intro a h _; omega
  | succ n ih =>
    intro a _ hm
    obtain ⟨e, he⟩ := Option.isSome_iff_exists.mp (hfail a)
    rw [List.range'_succ]
    cases n with
    | zero =>
      have ha : ¬ a < m - 1 := by omega
      rw [loopAttempts_cons_exhaust oracle m a _ e he ha]
      simp
    | succ k =>
      have ha : a < m - 1 := by omega
      rw [loopAttempts_cons_retry oracle m a _ e he ha,
        ih (a + 1) (Nat.succ_pos k) (by omega)]
      simp [List.range'_succ]

/-- If attempt `j` succeeds and every attempt before it raises, running
the loop over attempt indices `a, ..., a+len-1` (with `a ≤ j < a + len`
and `j + 1 ≤ m`) returns `True` after `j - a + 1` iterations, sleeping
`2 ^ i` after every failed attempt `i`. -/
theorem loopAttempts_firstSuccess (oracle : Nat → Option ErrKind) (m : Nat)
    (j : Nat) (hj : oracle j = none) (hfail : ∀ i, i < j → (oracle i).isSome)
    (hjm : j + 1 ≤ m) :
    ∀ len a, a ≤ j → j < a + len →
      loopAttempts oracle m (List.range' a len) =
        { result := some true, attempts := j - a + 1,
          sleeps := (List.range' a (j - a)).map (2 ^ ·) } := by
  intro len
  induction len with
  | zero => intro a h1 h2; omega
  | succ n ih =>
    intro a ha hlt
    rw [List.range'_succ]
    rcases Nat.eq_or_lt_of_le ha with rfl | haj
    · rw [loopAttempts_cons_ok oracle m a _ hj]
      simp
    · obtain ⟨e, he⟩ := Option.isSome_iff_exists.mp (hfail a haj)
      have hb : a < m - 1 := by omega
      rw [loopAttempts_cons_retry oracle m a _ e he hb,
        ih (a + 1) haj (by omega)]
      have hja : j - a = (j - (a + 1)) + 1 := by omega
      rw [hja, List.range'_succ]
      simp [Nat.sub_sub]

/-- A nonempty run of the loop over the full attempt range of `range(m)`
always returns a boolean. -/
theorem loopAttempts_isSome (oracle : Nat → Option ErrKind) (m : Nat) :
    ∀ len a, 0 < len → a + len = m →
      (loopAttempts oracle m (List.range' a len)).result.isSome := by
  intro len
  induction len with
  | zero => intro a h _; omega
  | succ n ih =>
    intro a _ hm
    rw [List.range'_succ]
    cases he : oracle a with
    | none => rw [loopAttempts_cons_ok oracle m a _ he]; rfl
    | some e =>
      cases n with
      | zero =>
        have ha : ¬ a < m - 1 := by omega
        rw [loopAttempts_cons_exhaust oracle m a _ e he ha]; rfl
      | succ k =>
        have ha : a < m - 1 := by omega
        rw [loopAttempts_cons_retry oracle m a _ e he ha]
        exact ih (a + 1) (Nat.succ_pos k) (by omega)

/-! ## Claim theorems -/

/-- C1: after the coordinator's result loop completes, the aggregate
report satisfies `total = succeeded + failed = number of input items`,
with exactly one outcome entry recorded per item. -/
theorem C1_aggregate_report_invariant
    (outcomes : List (Except ErrKind (Option Bool))) :
    (mainRun outcomes).succeeded + (mainRun outcomes).failed =
        (mainRun outcomes).total ∧
    (mainRun outcomes).total = outcomes.length ∧
    (collectResults outcomes).length = outcomes.length := by
  refine ⟨?_, ?_, ?_⟩
  · simp only [mainRun]
    exact Nat.add_sub_cancel' (List.length_filter_le _ _)
  · simp [mainRun, collectResults]
  · simp [collectResults]

/-- C2: a work item whose attempts all raise performs exactly
`maxRetries` attempts and returns `False`, sleeping
`1, 2, 4, ..., 2 ^ (maxRetries - 2)` seconds (that is, `base * 2 ^ (n-1)`
with base one second after the n-th failed attempt) with no sleep after
the final attempt. -/
theorem C2_exhausted_retries_trace (oracle : Nat → Option ErrKind)
    (maxRetries : Int) (hfail : ∀ n, (oracle n).isSome)
    (h1 : 1 ≤ maxRetries) :
    extract_url oracle maxRetries =
      { result := some false, attempts := maxRetries.toNat,
        sleeps := (List.range (maxRetries.toNat - 1)).map (2 ^ ·) } := by
  have h0 : 0 < maxRetries.toNat := by omega
  unfold extract_url
  rw [List.range_eq_range',
    loopAttempts_allFail oracle maxRetries.toNat hfail maxRetries.toNat 0 h0
      (by omega), List.range_eq_range']

/-- C2 witness: with the configured `MAX_RETRIES = 3` and a renderer that
always fails, the trace is three attempts, a failed result, and sleeps of
1 and 2 seconds. -/
theorem C2_exhausted_retries_trace_witness :
    extract_url (fun _ => some ErrKind.fetchError) 3 =
      { result := some false, attempts := 3, sleeps := [1, 2] } := by
  have h := C2_exhausted_retries_trace (fun _ => some ErrKind.fetchError) 3
    (fun _ => rfl) (by decide)
  rw [h]
  rfl

/-- C3: a work item that succeeds on attempt `k ≤ maxRetries` after
failing on attempts `1..k-1` returns `True` after exactly `k` attempts
(and hence performs no further attempts). -/
theorem C3_success_on_attempt_k (oracle : Nat → Option ErrKind)
    (maxRetries : Int) (k : Nat) (hk1 : 1 ≤ k)
    (hkm : (k : Int) ≤ maxRetries)
    (hfail : ∀ i, i + 1 < k → (oracle i).isSome)
    (hsucc : oracle (k - 1) = none) :
    extract_url oracle maxRetries =
      { result := some true, attempts := k,
        sleeps := (List.range (k - 1)).map (2 ^ ·) } := by
  unfold extract_url
  rw [List.range_eq_range',
    loopAttempts_firstSuccess oracle maxRetries.toNat (k - 1) hsucc
      (fun i hi => hfail i (by omega)) (by omega) maxRetries.toNat 0
      (by omega) (by omega)]
  simp only [Nat.sub_zero]
  rw [Nat.sub_add_cancel hk1, List.range_eq_range']

/-- C3 witness: with `MAX_RETRIES = 3` and a renderer failing on the first
attempt and succeeding on the second, the trace is two attempts, a
succeeded result, and a single one-second sleep. -/
theorem C3_success_on_attempt_k_witness :
    extract_url (fun i => if i = 1 then none else some ErrKind.fetchError) 3 =
      { result := some true, attempts := 2, sleeps := [1] } := by
  have h := C3_success_on_attempt_k
    (fun i => if i = 1 then none else some ErrKind.fetchError) 3 2
    (by decide) (by decide)
    (fun i hi => by
      have hz : i = 0 := by omega
      rw [hz]
      rfl)
    rfl
  rw [h]
  rfl

/-- C5 counterexample: a structurally invalid item (every attempt raising
`ErrKind.configError`) is retried like any other failure under the
configured `MAX_RETRIES = 3`: the pipeline performs 3 attempts, not 1, so
it does not yield a failed result immediately after the first attempt. -/
theorem C5_config_error_retried_counterexample :
    (extract_url (fun _ => some ErrKind.configError) MAX_RETRIES).attempts
        = 3 ∧
    (extract_url (fun _ => some ErrKind.configError) MAX_RETRIES).attempts
        ≠ 1 := by
  decide

/-- C5 amended: `extract_url` catches every exception in a single handler
without inspecting its kind, so a `ConfigError`-style failure on every
attempt is retried up to `maxRetries` like any other failure, yielding a
failed result only after `maxRetries` attempts with the full back-off
schedule. -/
theorem C5_config_error_uniform_retry (maxRetries : Int)
    (h1 : 1 ≤ maxRetries) :
    extract_url (fun _ => some ErrKind.configError) maxRetries =
      { result := some false, attempts := maxRetries.toNat,
        sleeps := (List.range (maxRetries.toNat - 1)).map (2 ^ ·) } := by
  have h0 : 0 < maxRetries.toNat := by omega
  unfold extract_url
  rw [List.range_eq_range',
    loopAttempts_allFail (fun _ => some ErrKind.configError) maxRetries.toNat
      (fun _ => rfl) maxRetries.toNat 0 h0 (by omega), List.range_eq_range']

/-- C5 witness: the amended behavior at the configured bound 3. -/
theorem C5_config_error_uniform_retry_witness :
    extract_url (fun _ => some ErrKind.configError) 3 =
      { result := some false, attempts := 3, sleeps := [1, 2] } := by
  have h := C5_config_error_uniform_retry 3 (by decide)
  rw [h]
  rfl

/-- C7: an exceptional future anywhere in the completion order is caught
at the collection boundary and recorded in place as a failed outcome;
sibling items before and after it are collected exactly as they would be
on their own, and the report still covers every item. -/
theorem C7_exception_isolated (pre post : List (Except ErrKind (Option Bool)))
    (e : ErrKind) :
    (mainRun (pre ++ Except.error e :: post)).total =
        (pre ++ Except.error e :: post).length ∧
    collectResults (pre ++ Except.error e :: post) =
      collectResults pre ++ some false :: collectResults post := by
  constructor
  · simp [mainRun, collectResults]
  · simp [collectResults]

/-- C10: `extract_url` returns a boolean on an execution exactly when
`MAX_RETRIES ≥ 1`; for `MAX_RETRIES ≤ 0` the loop body never runs and the
function falls through, returning `None`. -/
theorem C10_returns_bool_iff_retries_positive (oracle : Nat → Option ErrKind)
    (maxRetries : Int) :
    (extract_url oracle maxRetries).result.isSome ↔ 1 ≤ maxRetries := by
  constructor
  · intro h
    by_contra hle
    have h0 : maxRetries.toNat = 0 := by omega
    rw [extract_url, h0] at h
    simp [loopAttempts] at h
  · intro h
    have h0 : 0 < maxRetries.toNat := by omega
    rw [extract_url, List.range_eq_range']
    exact loopAttempts_isSome oracle maxRetries.toNat maxRetries.toNat 0 h0
      (by omega)

/-- C10 witness: at the configured bound 3 the result is a boolean; at
bound 0 the result is `None`. -/
theorem C10_returns_bool_iff_retries_positive_witness :
    (extract_url (fun _ => some ErrKind.fetchError) 3).result.isSome = true ∧
    (extract_url (fun _ => some ErrKind.fetchError) 0).result = none := by
  constructor
  · exact (C10_returns_bool_iff_retries_positive
      (fun _ => some ErrKind.fetchError) 3).mpr (by decide)
  · have h2 : ¬ (extract_url (fun _ => some ErrKind.fetchError) 0).result.isSome
        = true := by
      rw [C10_returns_bool_iff_retries_positive
        (fun _ => some ErrKind.fetchError) 0]
      decide
    exact Option.not_isSome_iff_eq_none.mp h2

/-- C4 counterexample: the traversal label `../evil` derives the path
`output/../evil.md`, which resolves to `evil.md` outside the output root,
yet `_save_markdown` performs the write there rather than rejecting it
with an `IOError`. -/
theorem C4_traversal_not_rejected_counterexample :
    withinRoot (save_markdown_path "../evil") = false ∧
    save_markdown "../evil" "content" =
      Except.ok (save_markdown_path "../evil", "content") := by
  constructor
  · decide
  · rfl

/-- C4 amended: `_save_markdown` joins the label directly under the output
root with no containment check and never rejects a label itself, so a
label containing path traversal is written outside the root instead of
being surfaced as an `IOError`. -/
theorem C4_unconditional_write :
    (∀ title content, save_markdown title content =
        Except.ok (save_markdown_path title, content)) ∧
    withinRoot (save_markdown_path "../evil") = false := by
  constructor
  · intro title content
    rfl
  · decide

/-- The source `or`-chain over the five `find` calls equals the spec's
ordered first-match over the candidate-selector list. -/
theorem extract_main_content_eq_firstMatch (s : Node) :
    extract_main_content s = firstMatch candidateSelectors s := by
  simp only [extract_main_content, firstMatch, candidateSelectors]
  cases findFirst isMainTag s <;> cases findFirst isArticleTag s <;>
    cases findFirst isDivClassContent s <;> cases findFirst isDivIdContent s <;>
    cases findFirst isDivRoleMain s <;> rfl

/-- C6: `_clean_html` is total (it is a function, never failing) and, on
the sanitized tree, selects the primary content region by trying in order
`main`, `article`, `div` with class `content`, `div` with id `content`,
`div` with ARIA role `main` — first match wins — falling back to the
document body and then to the whole document, exactly as the spec's
ordered-fallback selection prescribes. -/
theorem C6_ordered_fallback_selection (soup : Node) :
    clean_html soup = render (selectPrimarySpec (removeUnwanted soup)) := by
  simp only [clean_html, selectPrimarySpec]
  rw [← extract_main_content_eq_firstMatch]
  cases extract_main_content (removeUnwanted soup) with
  | some m => rfl
  | none => cases findFirst isBodyTag (removeUnwanted soup) <;> rfl

/-- C8: the transformer is deterministic — its output depends only on the
sanitized input string (and the fixed external converter), not on the
extractor instance, so two applications to the same input yield
byte-identical output. -/
theorem C8_transformer_deterministic (e1 e2 : MarkdownExtractor)
    (mdFn : String → String) (html : String) :
    e1.convert_to_markdown mdFn html = e2.convert_to_markdown mdFn html := rfl
